import Mathlib

/-!
Shallow embedding of `src/ssm.py`, an AWS Lambda that decodes a CloudWatch
Logs batch, extracts session facts from each record, and dispatches one
HTML alert e-mail per record.

Modelling conventions:
* Python/JSON dynamic values are the inductive `Json`; machine-level
  dynamic failures (KeyError, TypeError, AttributeError, IndexError, and
  a raising SES call) are `Except PyErr`.
* External collaborators (the stdlib `json.loads` / `json.dumps`, the
  boto3 EC2 `describe_instances` call and the SES `send_email` call, and
  the base64/gzip/JSON decode of the transport envelope) are parameters
  (oracles) of the functions that call them; everything else is
  translated directly from the source.
* Python `str.strip()` is modelled over the ASCII whitespace characters
  that the source data can contain.
-/

set_option autoImplicit false

/-- Dynamic (Python/JSON) values flowing through the handler. JSON numbers
are modelled as integers, which covers the integer millisecond timestamps
and identifiers this program manipulates. -/
inductive Json where
  | null
  | bool (b : Bool)
  | num (n : Int)
  | str (s : String)
  | arr (elems : List Json)
  | obj (fields : List (String × Json))

/-- The Python exceptions the modelled code can raise (plus `sesError`
for a raising SES `send_email` call). -/
inductive PyErr where
  | keyError
  | typeError
  | attributeError
  | indexError
  | sesError
  deriving DecidableEq, Repr

/-- First binding of a key in a JSON object (Python dict keys are unique,
so first-binding lookup models dict lookup). -/
def lookupField : List (String × Json) → String → Option Json
  | [], _ => none
  | (k, v) :: rest, key => if k = key then some v else lookupField rest key

/-- Python `x.get(key, default)`: only dicts have `.get`; every other
value raises `AttributeError`. -/
def pyGet (j : Json) (key : String) (default : Json) : Except PyErr Json :=
  match j with
  | .obj fields => .ok ((lookupField fields key).getD default)
  | _ => .error .attributeError

/-- Python `x[key]` for a string key: `KeyError` on a dict missing the
key, `TypeError` on every non-dict. -/
def pySubscript (j : Json) (key : String) : Except PyErr Json :=
  match j with
  | .obj fields =>
    match lookupField fields key with
    | some v => .ok v
    | none => .error .keyError
  | _ => .error .typeError

/-- Python `x[-1]`: last element of a list, last character of a string,
`KeyError` on a dict, `TypeError` otherwise. -/
def pyIndexLast (j : Json) : Except PyErr Json :=
  match j with
  | .arr [] => .error .indexError
  | .arr (x :: xs) => .ok ((x :: xs).getLast (by simp))
  | .str s =>
    match s.data.getLast? with
    | some c => .ok (.str (String.mk [c]))
    | none => .error .indexError
  | .obj _ => .error .keyError
  | _ => .error .typeError

/-- Python `x[0]`: first element of a list, first character of a string,
`KeyError` on a dict, `TypeError` otherwise. -/
def pyIndexFirst (j : Json) : Except PyErr Json :=
  match j with
  | .arr [] => .error .indexError
  | .arr (x :: _) => .ok x
  | .str s =>
    match s.data with
    | c :: _ => .ok (.str (String.mk [c]))
    | [] => .error .indexError
  | .obj _ => .error .keyError
  | _ => .error .typeError

/-- Python truthiness of the modelled values. -/
def truthy : Json → Bool
  | .null => false
  | .bool b => b
  | .num n => n != 0
  | .str s => !s.isEmpty
  | .arr xs => !xs.isEmpty
  | .obj fields => !fields.isEmpty

/-- Python `for x in j`: lists yield their elements, strings their
characters, dicts their keys; other values raise `TypeError`. -/
def pyIterate (j : Json) : Except PyErr (List Json) :=
  match j with
  | .arr xs => .ok xs
  | .str s => .ok (s.data.map fun c => Json.str (String.mk [c]))
  | .obj fields => .ok (fields.map fun kv => Json.str kv.1)
  | _ => .error .typeError

/-- A value where Python requires a `str` (e.g. `re.sub` raises
`TypeError` on non-string input). -/
def asPyString (j : Json) : Except PyErr String :=
  match j with
  | .str s => .ok s
  | _ => .error .typeError

/-- A value Python's `/` and `datetime.fromtimestamp` accept as a number
(ints and bools); everything else raises `TypeError`. -/
def asPyNumber (j : Json) : Except PyErr Int :=
  match j with
  | .num n => .ok n
  | .bool b => .ok (if b then 1 else 0)
  | _ => .error .typeError

/-- Python `x == "lit"` for a string literal: true exactly on the equal
string (values of other types compare unequal without raising). -/
def jsonIsStr (j : Json) (s : String) : Bool :=
  match j with
  | .str t => t = s
  | _ => false

/-- Is the value a JSON object (a Python dict)? -/
def isJsonObj : Json → Bool
  | .obj _ => true
  | _ => false

/-- Python `repr` of the modelled values, as used by `str` on containers.
String escaping inside `repr` is not modelled beyond quoting. -/
def pyRepr : Json → String
  | .null => "None"
  | .bool b => if b then "True" else "False"
  | .num n => toString n
  | .str s => "\x27" ++ s ++ "\x27"
  | .arr xs => "[" ++ String.intercalate ", " (xs.attach.map fun x => pyRepr x.1) ++ "]"
  | .obj fields =>
    "\x7b" ++
      String.intercalate ", "
        (fields.attach.map fun kv => "\x27" ++ kv.1.1 ++ "\x27: " ++ pyRepr kv.1.2) ++
      "\x7d"
termination_by j => sizeOf j
decreasing_by
  · have h := List.sizeOf_lt_of_mem x.2
    simp only [Json.arr.sizeOf_spec]
    omega
  · have h := List.sizeOf_lt_of_mem kv.2
    have h2 : sizeOf kv.1.2 < sizeOf kv.1 := by
      obtain ⟨⟨a, b⟩, hm⟩ := kv
      simp only [Prod.mk.sizeOf_spec]
      omega
    simp only [Json.obj.sizeOf_spec]
    omega

/-- Python `str(x)` as performed by f-string interpolation. -/
def pyStr (j : Json) : String :=
  match j with
  | .str s => s
  | _ => pyRepr j

/-! ## The ANSI escape regex

The pattern is ESC followed by either one byte in `[@-Z\\-_]` or a CSI
sequence: `[`, then parameter bytes 0x30..0x3F, then intermediate bytes
0x20..0x2F, then one final byte 0x40..0x7E.  `ansiStrip` models
`re.sub` of the pattern with the empty replacement: scan left to
right; at each position try to
match (the single-byte alternative first, then the CSI alternative); on a
match drop the matched characters and continue after them, otherwise emit
the character and move one position forward.  The three CSI character
classes are pairwise disjoint, so the greedy no-backtracking match below
is exactly the regex match. -/

/-- The character class `[@-Z\\-_]` (a range `@`..`Z` and a range
backslash..underscore, i.e. 0x40..0x5A and 0x5C..0x5F). -/
def isEscSingle (c : Char) : Bool :=
  (0x40 ≤ c.toNat && c.toNat ≤ 0x5A) || (0x5C ≤ c.toNat && c.toNat ≤ 0x5F)

/-- CSI parameter bytes (`0`..`?`, 0x30..0x3F). -/
def isCsiParam (c : Char) : Bool :=
  0x30 ≤ c.toNat && c.toNat ≤ 0x3F

/-- CSI intermediate bytes (space..slash, 0x20..0x2F). -/
def isCsiInter (c : Char) : Bool :=
  0x20 ≤ c.toNat && c.toNat ≤ 0x2F

/-- CSI final bytes (`@`..`~`, 0x40..0x7E). -/
def isCsiFinal (c : Char) : Bool :=
  0x40 ≤ c.toNat && c.toNat ≤ 0x7E

/-- Match the tail of the CSI alternative (parameter bytes, then
intermediate bytes, then one final byte) at the front of `cs`, i.e. the
part after `ESC [`; returns the rest of the input after the match. -/
def csiMatch (cs : List Char) : Option (List Char) :=
  match (cs.dropWhile isCsiParam).dropWhile isCsiInter with
  | f :: rest => if isCsiFinal f then some rest else none
  | [] => none

/-- The scan of the `re.sub` substitution, with explicit fuel to make
the recursion structural.  Every recursive call consumes at least one
character of the list while spending exactly one unit of fuel, so
`fuel = length of the input` (as used by `ansiStrip`) always suffices and
the `0, l` fallback is unreachable from `ansiStrip`. -/
def ansiStripF : Nat → List Char → List Char
  | 0, l => l
  | _ + 1, [] => []
  | fuel + 1, c :: cs =>
    if c = '\x1B' then
      match cs with
      | [] => [c]
      | d :: ds =>
        if isEscSingle d then ansiStripF fuel ds
        else if d = '[' then
          match csiMatch ds with
          | some rest => ansiStripF fuel rest
          | none => c :: ansiStripF fuel (d :: ds)
        else c :: ansiStripF fuel (d :: ds)
    else c :: ansiStripF fuel cs

/-- Substitution `re.sub` of the ANSI/VT escape pattern with the empty replacement,
as performed at the top of `extract_clean_command` and
`extract_username`. -/
def ansiStrip (cs : List Char) : List Char :=
  ansiStripF cs.length cs

/-! ## `extract_clean_command` and `extract_username` -/

/-- The whitespace characters removed by Python `str.strip()` (the ASCII
ones; the data this program strips never contains the further Unicode
whitespace code points). -/
def isPySpace (c : Char) : Bool :=
  c = ' ' || c = '\t' || c = '\n' || c = '\x0d' || c = '\x0b' || c = '\x0c'

/-- Python `s.strip()`: remove leading and trailing whitespace. -/
def pyStripList (cs : List Char) : List Char :=
  (((cs.dropWhile isPySpace).reverse.dropWhile isPySpace).reverse)

/-- Python `s.split(sep, 1)` on a one-character separator: the part
before the first separator, and (when the separator occurs) the part
after it. -/
def pySplitOnce (sep : Char) : List Char → List Char × Option (List Char)
  | [] => ([], none)
  | c :: cs =>
    if c = sep then ([], some cs)
    else
      let (pre, post) := pySplitOnce sep cs
      (c :: pre, post)

/-- Function `extract_clean_command` from `src/ssm.py`: strip ANSI escapes; if a
`#` occurs, keep `split('#', 1)[1]` stripped of whitespace, else strip
the whole text. -/
def extract_clean_command (raw_line : String) : String :=
  let cleaned := ansiStrip raw_line.data
  if cleaned.contains '#' then
    String.mk (pyStripList (((pySplitOnce '#' cleaned).2).getD []))
  else
    String.mk (pyStripList cleaned)

/-- The identifier class `[a-zA-Z0-9_-]` of the actor regex. -/
def isIdentChar (c : Char) : Bool :=
  c.isAlpha || c.isDigit || c = '_' || c = '-'

/-- The host class of the actor regex: letters, digits, dot, hyphen. -/
def isHostChar (c : Char) : Bool :=
  c.isAlpha || c.isDigit || c = '.' || c = '-'

/-- Try to match the actor regex (one or more identifier characters,
`@`, one or more host characters) at the front of `cs`; on success
return the identifier group.  The identifier class excludes `@` and the
host class is greedy with nothing after it, so no backtracking can
rescue a failed greedy match and this is exactly the regex semantics. -/
def userMatchAt (cs : List Char) : Option (List Char) :=
  let ident := cs.takeWhile isIdentChar
  if ident.isEmpty then none
  else
    match cs.dropWhile isIdentChar with
    | '@' :: rest => if (rest.takeWhile isHostChar).isEmpty then none else some ident
    | _ => none

/-- Search `re.search` for the actor regex: the match at the leftmost position
where one exists. -/
def userSearch : List Char → Option (List Char)
  | [] => none
  | c :: cs =>
    match userMatchAt (c :: cs) with
    | some ident => some ident
    | none => userSearch cs

/-- Function `extract_username` from `src/ssm.py`: strip ANSI escapes from the raw
line, search for `identifier@host`, return the identifier of the first
match, else the fallback value the caller supplied. -/
def extract_username (raw_line : String) (fallback_username : Json) : Json :=
  let cleaned := ansiStrip raw_line.data
  match userSearch cleaned with
  | some ident => .str (String.mk ident)
  | none => fallback_username

/-! ## Timestamp rendering

`datetime.fromtimestamp(ms / 1000, tz=timezone.utc)` builds an aware
datetime for the instant `ms` milliseconds after the epoch;
`astimezone` re-expresses the same instant at another fixed offset;
`strftime` with format `%Y-%m-%d %H:%M:%S` and a zone suffix renders the civil
(proleptic-Gregorian) fields of the instant shifted by the offset.  A
datetime is modelled as the instant's epoch seconds (the floor of
`ms / 1000`; the sub-second fraction is dropped because the format has no
sub-second field) together with its UTC offset in seconds.  The civil
conversion is the standard days-to-Gregorian algorithm.  The model omits
the year 1..9999 range restriction of `datetime`. -/

/-- An aware `datetime`: the instant (epoch seconds) and the timezone's
UTC offset in seconds. -/
structure PyDatetime where
  epochSecs : Int
  utcOffset : Int

/-- Model of `datetime.fromtimestamp` at `ms / 1000` with `tz=timezone.utc`, keeping the
whole seconds of the instant. -/
def fromtimestampUTC (ms : Int) : PyDatetime :=
  ⟨Int.fdiv ms 1000, 0⟩

/-- Model of `dt.astimezone(tz)` for a fixed-offset `tz`: same instant, new
offset. -/
def astimezone (dt : PyDatetime) (offsetSecs : Int) : PyDatetime :=
  ⟨dt.epochSecs, offsetSecs⟩

/-- Offset `timezone(timedelta(hours=5, minutes=30))` expressed in
seconds. -/
def istOffsetSecs : Int := 5 * 3600 + 30 * 60

/-- Gregorian calendar date of a count of days since 1970-01-01
(year, month, day). -/
def civilFromDays (z0 : Int) : Int × Int × Int :=
  let z := z0 + 719468
  let era := Int.fdiv z 146097
  let doe := z - era * 146097
  let yoe := Int.fdiv (doe - Int.fdiv doe 1460 + Int.fdiv doe 36524 - Int.fdiv doe 146096) 365
  let y := yoe + era * 400
  let doy := doe - (365 * yoe + Int.fdiv yoe 4 - Int.fdiv yoe 100)
  let mp := Int.fdiv (5 * doy + 2) 153
  let d := doy - Int.fdiv (153 * mp + 2) 5 + 1
  let m := mp + (if mp < 10 then 3 else -9)
  (y + (if m ≤ 2 then 1 else 0), m, d)

/-- Two-digit zero padding, as `%m %d %H %M %S` render their fields. -/
def pad2 (n : Int) : String :=
  if 0 ≤ n && n < 10 then "0" ++ toString n else toString n

/-- Model of `strftime` with the format `%Y-%m-%d %H:%M:%S` followed by the
zone name: the civil fields of the
instant shifted by the datetime's offset (`%Y` renders the year unpadded,
which is four digits for every year this program can see). -/
def strftimeYmdHMS (dt : PyDatetime) (zone : String) : String :=
  let t := dt.epochSecs + dt.utcOffset
  let days := Int.fdiv t 86400
  let sod := t - days * 86400
  let ymd := civilFromDays days
  toString ymd.1 ++ "-" ++ pad2 ymd.2.1 ++ "-" ++ pad2 ymd.2.2 ++ " " ++
    pad2 (Int.fdiv sod 3600) ++ ":" ++ pad2 (Int.fdiv sod 60 % 60) ++ ":" ++
    pad2 (sod % 60) ++ " " ++ zone

/-- Lines 37-41 of `src/ssm.py`: the rendered `timestamp` string for a
record's millisecond epoch timestamp. -/
def renderTimestamp (ms : Int) : String :=
  let utc_time := fromtimestampUTC ms
  let ist_time := astimezone utc_time istOffsetSecs
  let timestamp_utc := strftimeYmdHMS utc_time "UTC"
  let timestamp_ist := strftimeYmdHMS ist_time "IST"
  timestamp_utc ++ " / " ++ timestamp_ist

/-! ## Configuration constants -/

def REGION : String := "ap-south-1"

def LOG_GROUP_NAME : String := "SSM"

def EMAIL_FROM : String := "04shivm@gmail.com"

def EMAIL_TO : String := "04shivm@gmail.com"

/-! ## `get_instance_name` -/

/-- The `for tag in tags` loop of `get_instance_name`: the value of the
first tag whose `Key` subscript equals `"Name"`, raising whatever the
subscripts raise. -/
def findNameTag : List Json → Except PyErr (Option Json)
  | [] => .ok none
  | tag :: rest => do
    let k ← pySubscript tag "Key"
    if jsonIsStr k "Name" then
      let v ← pySubscript tag "Value"
      pure (some v)
    else
      findNameTag rest

/-- Function `get_instance_name` from `src/ssm.py`.  Here `ec2` is the boto3
`describe_instances` collaborator, mapping the queried instance id to a
response or to a raised exception.  Any exception inside the `try`
(a raising call, a malformed response, malformed tags) is swallowed and
the placeholder `"Unknown"` is returned. -/
def get_instance_name (ec2 : Json → Except Unit Json) (instance_id : Json) : Json :=
  let attempt : Except PyErr (Option Json) := do
    let r ← match ec2 instance_id with
      | .ok v => Except.ok v
      | .error _ => Except.error PyErr.typeError
    let reservations ← pySubscript r "Reservations"
    let first_reservation ← pyIndexFirst reservations
    let instances ← pySubscript first_reservation "Instances"
    let first_instance ← pyIndexFirst instances
    let tags ← pyGet first_instance "Tags" (Json.arr [])
    let tagList ← pyIterate tags
    findNameTag tagList
  match attempt with
  | .ok (some v) => v
  | _ => Json.str "Unknown"

/-! ## The notifier -/

/-- One SES `send_email` request as issued by `send_html_email`. -/
structure SentEmail where
  source : String
  toAddresses : List String
  subject : String
  htmlBody : String
  deriving DecidableEq

/-- Function `send_html_email` from `src/ssm.py`: the request it hands to the SES
client (whether that call raises is decided by the `sesOk` oracle at the
call site in the handler loop). -/
def send_html_email (subject html_body : String) : SentEmail :=
  ⟨EMAIL_FROM, [EMAIL_TO], subject, html_body⟩

/-- Function `build_html_email` from `src/ssm.py`: the rendered HTML alert body.
Interpolated non-string values go through Python `str` (`pyStr`). -/
def build_html_email (timestamp : String) (instance_id instance_name username : Json)
    (command raw_json : String) (log_stream : Json) (log_link : String) : String :=
  "\n    <html>\n    <head>\n      <style>\n        body \x7b font-family: Arial, sans-serif; background-color: #ffffff; color: #000000; \x7d\n        table \x7b\n          border-collapse: collapse;\n          width: 100%;\n        \x7d\n        th, td \x7b\n          text-align: left;\n          padding: 8px;\n          border: 1px solid #ddd;\n        \x7d\n        th \x7b\n          background-color: #f44336;\n          color: white;\n        \x7d\n        .button-container \x7b\n          margin-top: 20px;\n        \x7d\n        .button \x7b\n          background-color: #1e88e5;\n          color: #ffffff;\n          padding: 12px 20px;\n          text-decoration: none;\n          display: inline-block;\n          border-radius: 5px;\n          font-size: 16px;\n          border: none;\n        \x7d\n        .button:hover \x7b\n          background-color: #1565c0;\n        \x7d\n        .json-box \x7b\n          margin-top: 20px;\n          background: #f4f4f4;\n          padding: 15px;\n          border-radius: 5px;\n          font-family: monospace;\n          white-space: pre-wrap;\n          color: #333333;\n        \x7d\n      </style>\n    </head>\n    <body>\n      <h2>üö® Critical Command Alert</h2>\n      <table>\n        <tr><th>Field</th><th>Value</th></tr>\n        <tr><td>Time</td><td>" ++
    timestamp ++
    "</td></tr>\n        <tr><td>Instance ID</td><td>" ++
    pyStr instance_id ++
    "</td></tr>\n        <tr><td>Instance Name</td><td>" ++
    pyStr instance_name ++
    "</td></tr>\n        <tr><td>Username</td><td>" ++
    pyStr username ++
    "</td></tr>\n        <tr><td>Command</td><td><code>" ++
    command ++
    "</code></td></tr>\n        <tr><td>Log Group</td><td>" ++
    LOG_GROUP_NAME ++
    "</td></tr>\n        <tr><td>Log Stream</td><td>" ++
    pyStr log_stream ++
    "</td></tr>\n      </table>\n\n      <div class=\"button-container\">\n        <a class=\"button\" href=\"" ++
    log_link ++
    "\" target=\"_blank\">üîç View Logs in CloudWatch</a>\n      </div>\n\n      <div class=\"json-box\">\n        <strong>Raw JSON Command:</strong><br>\n        " ++
    raw_json ++
    "\n      </div>\n    </body>\n    </html>\n    "

/-! ## `lambda_handler`

The transport decode (lines 17-23: base64, gzip, top-level
`json.loads`, including the `event["awslogs"]["data"]` lookups) is the
`decodeResult` parameter: `Except.error msg` when anything in that `try`
block raised with message `msg`, `Except.ok logs_data` otherwise.
`jloads` is the stdlib `json.loads` applied to a record's message text,
`jdumps` the stdlib `json.dumps(_, indent=2)`, `ec2` the
`describe_instances` collaborator, and `sesOk k` tells whether the k-th
SES `send_email` call of the invocation succeeds or raises. -/

/-- Line 43 of `src/ssm.py`:
the chained `get` of `target` then `id` on the inner payload, with the
defaults empty-dict and `unknown`. -/
def targetIdOf (message_json : Json) : Except PyErr Json := do
  let target ← pyGet message_json "target" (Json.obj [])
  pyGet target "id" (Json.str "unknown")

/-- Line 35 of `src/ssm.py`: `extract_username(raw_command_line,
the `runAsUser` lookup with default `unknown`)`. -/
def usernameOfRecord (raw_command_line : String) (message_json : Json) :
    Except PyErr Json := do
  let fallback ← pyGet message_json "runAsUser" (Json.str "unknown")
  pure (extract_username raw_command_line fallback)

/-- The body of the `for log_event in logs_data["logEvents"]` loop
(lines 26-52), up to and including the rendering of the e-mail; the
resulting pair is (subject, html body).  Exceptions other than the
caught inner `json.JSONDecodeError` propagate. -/
def processRecord (jloads : String → Except Unit Json) (ec2 : Json → Except Unit Json)
    (jdumps : Json → String) (logs_data log_event : Json) :
    Except PyErr (String × String) := do
  let messageJ ← pyGet log_event "message" (Json.str "\x7b\x7d")
  let messageText ← asPyString messageJ
  let message_json := match jloads messageText with
    | .ok v => v
    | .error _ => Json.obj []
  let session_data ← pyGet message_json "sessionData" (Json.arr [])
  let raw_command_lineJ ←
    if truthy session_data then pyIndexLast session_data else pure (Json.str "")
  let raw_command_line ← asPyString raw_command_lineJ
  let cleaned_command := extract_clean_command raw_command_line
  let username ← usernameOfRecord raw_command_line message_json
  let tsJ ← pySubscript log_event "timestamp"
  let ms ← asPyNumber tsJ
  let timestamp := renderTimestamp ms
  let instance_id ← targetIdOf message_json
  let instance_name := get_instance_name ec2 instance_id
  let raw_json_command := jdumps message_json
  let log_stream ← pyGet logs_data "logStream" (Json.str "Unknown")
  let log_link := "https://console.aws.amazon.com/cloudwatch/home?region=" ++ REGION ++
    "#logsV2:log-groups/log-group/" ++ LOG_GROUP_NAME ++ "/log-events/" ++ pyStr log_stream
  let subject := "[ALERT] Critical Command on " ++ pyStr instance_id ++ " (" ++
    pyStr instance_name ++ ") by " ++ pyStr username
  let html := build_html_email timestamp instance_id instance_name username
    cleaned_command raw_json_command log_stream log_link
  pure (subject, html)

/-- The record loop: processes the events in order, dispatching one
e-mail per record; the first uncaught exception (from record processing
or from a raising SES call) aborts the loop.  Returns the loop outcome
and the e-mails successfully dispatched before it. -/
def processEvents (jloads : String → Except Unit Json) (ec2 : Json → Except Unit Json)
    (jdumps : Json → String) (sesOk : Nat → Bool) (logs_data : Json) :
    List Json → Nat → Except PyErr Unit × List SentEmail
  | [], _ => (.ok (), [])
  | log_event :: rest, k =>
    match processRecord jloads ec2 jdumps logs_data log_event with
    | .error err => (.error err, [])
    | .ok email =>
      if sesOk k then
        let r := processEvents jloads ec2 jdumps sesOk logs_data rest (k + 1)
        (r.1, send_html_email email.1 email.2 :: r.2)
      else
        (.error .sesError, [])

/-- The result value `lambda_handler` returns on its non-raising paths. -/
structure HandlerResult where
  statusCode : Nat
  body : String
  deriving DecidableEq

/-- Function `lambda_handler` from `src/ssm.py`: the invocation outcome (a
returned `HandlerResult`, or the exception that propagated out of the
handler) together with the e-mails dispatched during the invocation. -/
def lambda_handler (jloads : String → Except Unit Json) (ec2 : Json → Except Unit Json)
    (jdumps : Json → String) (sesOk : Nat → Bool) (decodeResult : Except String Json) :
    Except PyErr HandlerResult × List SentEmail :=
  match decodeResult with
  | .error e => (.ok ⟨400, "Log decode failed: " ++ e⟩, [])
  | .ok logs_data =>
    match pySubscript logs_data "logEvents" with
    | .error err => (.error err, [])
    | .ok eventsJ =>
      match pyIterate eventsJ with
      | .error err => (.error err, [])
      | .ok events =>
        match processEvents jloads ec2 jdumps sesOk logs_data events 0 with
        | (.ok _, sent) => (.ok ⟨200, "Email(s) sent successfully"⟩, sent)
        | (.error err, sent) => (.error err, sent)

/-! ## Definitions taken from the specification's wording, for comparison
with the code-side definitions above -/

/-- Spec wording, step 4 of the Record Parser: "everything after the
first occurrence" of `#`. -/
def specAfterFirstHash (cs : List Char) : List Char :=
  (cs.dropWhile fun c => c != '#').tail

/-- Spec wording, step 4 of the Record Parser: if the stripped text
contains a `#`, take everything after the first occurrence and trim
surrounding whitespace; if no `#` is present, just trim whitespace from
the whole stripped text. -/
def specCleanCommand (raw_line : String) : String :=
  let stripped := ansiStrip raw_line.data
  if '#' ∈ stripped then String.mk (pyStripList (specAfterFirstHash stripped))
  else String.mk (pyStripList stripped)

/-- Spec wording, step 6 of the Record Parser: one rendering of the
instant in the zone `zone`, formatted `YYYY-MM-DD HH:MM:SS <ZONE>`
(`secs` is the instant as epoch seconds, already shifted into the
zone's local time for rendering). -/
def specInstantRendering (secs : Int) (zone : String) : String :=
  let days := Int.fdiv secs 86400
  let sod := secs - days * 86400
  let ymd := civilFromDays days
  toString ymd.1 ++ "-" ++ pad2 ymd.2.1 ++ "-" ++ pad2 ymd.2.2 ++ " " ++
    pad2 (Int.fdiv sod 3600) ++ ":" ++ pad2 (Int.fdiv sod 60 % 60) ++ ":" ++
    pad2 (sod % 60) ++ " " ++ zone

/-- Spec wording, step 6 of the Record Parser: render the instant once in
UTC and once at the fixed offset +5:30, and concatenate as
`"<UTC-string> / <LOCAL-string>"`. -/
def specTimestampString (ms : Int) : String :=
  specInstantRendering (Int.fdiv ms 1000) "UTC" ++ " / " ++
    specInstantRendering (Int.fdiv ms 1000 + istOffsetSecs) "IST"

/-- A string with no leading and no trailing Python whitespace. -/
def noEdgeWhitespace (s : String) : Bool :=
  (match s.data.head? with
   | some c => !isPySpace c
   | none => true) &&
  (match s.data.getLast? with
   | some c => !isPySpace c
   | none => true)

/-- A `describe_instances` tag object `{"Key": k, "Value": v}`. -/
def mkNameTag (kv : String × Json) : Json :=
  Json.obj [("Key", Json.str kv.1), ("Value", kv.2)]

/-- A well-formed `describe_instances` response carrying the given list
of tag objects on its single instance. -/
def mkDescribeResponse (tags : List Json) : Json :=
  Json.obj [("Reservations",
    Json.arr [Json.obj [("Instances",
      Json.arr [Json.obj [("Tags", Json.arr tags)]])]])]

/-! ## Concrete collaborators and batches used by the closed theorems -/

/-- A `json.loads` oracle for message texts that are not valid JSON. -/
def jloadsNever : String → Except Unit Json := fun _ => .error ()

/-- A `json.loads` oracle under which the message text `"5"` parses to
the JSON number `5` (as the real `json.loads` does). -/
def jloadsNum : String → Except Unit Json :=
  fun s => if s = "5" then .ok (Json.num 5) else .error ()

/-- A `json.loads` oracle under which the message text `"t"` parses to
the object mapping `"target"` to the string `"x"`. -/
def jloadsTargetStr : String → Except Unit Json :=
  fun s => if s = "t" then .ok (Json.obj [("target", Json.str "x")]) else .error ()

/-- A `describe_instances` collaborator that always raises. -/
def ec2Never : Json → Except Unit Json := fun _ => .error ()

/-- A `describe_instances` collaborator that returns a well-formed
response whose instance carries an `Env` tag and then a `Name` tag. -/
def ec2NameTag : Json → Except Unit Json :=
  fun _ => .ok (mkDescribeResponse
    ([("Env", Json.str "prod"), ("Name", Json.str "web-server")].map mkNameTag))

/-- A `json.dumps` oracle (its output is only interpolated into the HTML
body, never inspected). -/
def jdumpsConst : Json → String := fun _ => "\x7b\x7d"

/-- An SES collaborator whose `send_email` always succeeds. -/
def sesAlwaysOk : Nat → Bool := fun _ => true

/-- An SES collaborator whose `send_email` always raises. -/
def sesNeverOk : Nat → Bool := fun _ => false

/-- An SES collaborator whose `send_email` raises on the first call of
the invocation and succeeds on every later call. -/
def sesFailFirst : Nat → Bool := fun k => k != 0

/-- A record whose message text parses under no `jloads` oracle used
here. -/
def recMsgA : Json := Json.obj [("message", Json.str "a"), ("timestamp", Json.num 0)]

/-- A second unparseable-message record. -/
def recMsgB : Json := Json.obj [("message", Json.str "b"), ("timestamp", Json.num 0)]

/-- A decoded batch of two processable records. -/
def twoRecordBatch : Json := Json.obj [("logEvents", Json.arr [recMsgA, recMsgB])]

/-- A record whose message text is `"5"`: valid JSON, but not an
object. -/
def recNumMessage : Json := Json.obj [("message", Json.str "5"), ("timestamp", Json.num 0)]

/-- A decoded batch whose first record's message parses to a JSON number
and whose second record is processable. -/
def numMessageBatch : Json := Json.obj [("logEvents", Json.arr [recNumMessage, recMsgB])]

/-- A record whose message parses to an object whose `"target"` field is
present but not itself an object. -/
def recTargetStr : Json := Json.obj [("message", Json.str "t"), ("timestamp", Json.num 0)]

/-- A decoded batch containing only `recTargetStr`. -/
def targetStrBatch : Json := Json.obj [("logEvents", Json.arr [recTargetStr])]

/-- The e-mail rendered for `recMsgA` (used to discharge the witness's
hypothesis with a concrete value). -/
def emailOfRecA : String × String :=
  (processRecord jloadsNever ec2Never jdumpsConst twoRecordBatch recMsgA).toOption.getD ("", "")

/-- The (subject, html) pair rendered for a record whose inner message
text could not be parsed: the command is empty text, the actor and the
target id are `"unknown"`, the target label is whatever enrichment
returns for `"unknown"`, and the raw-payload display is the dump of the
substituted empty object. -/
def placeholderEmail (ec2 : Json → Except Unit Json) (jdumps : Json → String)
    (lfields : List (String × Json)) (t : Int) : String × String :=
  let instance_name := get_instance_name ec2 (Json.str "unknown")
  let log_stream := (lookupField lfields "logStream").getD (Json.str "Unknown")
  let log_link := "https://console.aws.amazon.com/cloudwatch/home?region=" ++ REGION ++
    "#logsV2:log-groups/log-group/" ++ LOG_GROUP_NAME ++ "/log-events/" ++ pyStr log_stream
  ("[ALERT] Critical Command on unknown (" ++ pyStr instance_name ++ ") by unknown",
   build_html_email (renderTimestamp t) (Json.str "unknown") instance_name
     (Json.str "unknown") "" (jdumps (Json.obj [])) log_stream log_link)

/-! ## Helper lemmas -/

theorem csiMatch_length {cs rest : List Char} (h : csiMatch cs = some rest) :
    rest.length < cs.length := by
  unfold csiMatch at h
  have h1 : ((cs.dropWhile isCsiParam).dropWhile isCsiInter).length ≤ cs.length :=
    le_trans (List.dropWhile_suffix _).length_le (List.dropWhile_suffix _).length_le
  cases hd : (cs.dropWhile isCsiParam).dropWhile isCsiInter with
  | nil => rw [hd] at h; exact absurd h (by simp)
  | cons f tl =>
    rw [hd] at h h1
    by_cases hf : isCsiFinal f
    · simp only [hf, if_true, Option.some.injEq] at h
      subst h
      simp only [List.length_cons] at h1
      omega
    · simp [hf] at h

/-- Sanity check for the fuel in `ansiStripF`: any fuel at least the
input length (in particular the `ansiStrip` wrapper's choice) computes
the same result, since every recursive call consumes at least one
character. -/
theorem ansiStripF_fuel_irrelevant :
    ∀ (n : Nat) (cs : List Char), cs.length ≤ n →
      ∀ f g, cs.length ≤ f → cs.length ≤ g → ansiStripF f cs = ansiStripF g cs := by
  intro n
  induction n with
  | zero =>
    intro cs hcs f g _ _
    have hnil : cs = [] := List.eq_nil_of_length_eq_zero (Nat.le_zero.mp hcs)
    subst hnil
    cases f <;> cases g <;> rfl
  | succ n ih =>
    intro cs hcs f g hf hg
    cases cs with
    | nil => cases f <;> cases g <;> rfl
    | cons c cs2 =>
      simp only [List.length_cons] at hcs hf hg
      cases f with
      | zero => omega
      | succ f2 =>
        cases g with
        | zero => omega
        | succ g2 =>
          by_cases hc : c = '\x1B'
          · cases cs2 with
            | nil => simp only [ansiStripF, if_pos hc]
            | cons d ds =>
              simp only [List.length_cons] at hcs hf hg
              by_cases hd : isEscSingle d
              · simp only [ansiStripF, if_pos hc, hd, if_true]
                exact ih ds (by omega) f2 g2 (by omega) (by omega)
              · by_cases hdb : d = '['
                · simp only [ansiStripF, if_pos hc, hd, if_false, if_pos hdb]
                  cases hcsi : csiMatch ds with
                  | some rest =>
                    have hlt := csiMatch_length hcsi
                    exact ih rest (by omega) f2 g2 (by omega) (by omega)
                  | none =>
                    have h2 := ih (d :: ds) (by simp; omega) f2 g2
                      (by simp; omega) (by simp; omega)
                    simp [hcsi, h2]
                · simp only [ansiStripF, if_pos hc, hd, if_false, if_neg hdb]
                  have h2 := ih (d :: ds) (by simp; omega) f2 g2
                    (by simp; omega) (by simp; omega)
                  simp [h2]
          · simp only [ansiStripF, if_neg hc]
            have h2 := ih cs2 (by omega) f2 g2 (by omega) (by omega)
            rw [h2]

/-- Any sufficient fuel computes `ansiStrip`. -/
theorem ansiStripF_eq_ansiStrip {f : Nat} {cs : List Char} (hf : cs.length ≤ f) :
    ansiStripF f cs = ansiStrip cs :=
  ansiStripF_fuel_irrelevant cs.length cs le_rfl f cs.length hf le_rfl

theorem ansiStripF_of_not_esc :
    ∀ (fuel : Nat) (cs : List Char), '\x1B' ∉ cs → ansiStripF fuel cs = cs := by
  intro fuel
  induction fuel with
  | zero => intro cs _; rfl
  | succ f ih =>
    intro cs h
    cases cs with
    | nil => rfl
    | cons c cs =>
      have hc : ¬c = '\x1B' := fun hc => h (hc ▸ List.mem_cons_self c cs)
      have hcs : '\x1B' ∉ cs := fun hm => h (List.mem_cons_of_mem c hm)
      simp only [ansiStripF, if_neg hc]
      rw [ih cs hcs]

/-- Stripping is the identity on ESC-free text: every match of the
pattern starts with ESC. -/
theorem ansiStrip_of_not_esc {cs : List Char} (h : '\x1B' ∉ cs) :
    ansiStrip cs = cs :=
  ansiStripF_of_not_esc cs.length cs h

theorem head?_dropWhile_not (p : Char → Bool) :
    ∀ (l : List Char) (c : Char), (l.dropWhile p).head? = some c → p c = false := by
  intro l
  induction l with
  | nil => intro c h; simp [List.dropWhile] at h
  | cons a l ih =>
    intro c h
    by_cases ha : p a
    · rw [List.dropWhile_cons_of_pos ha] at h
      exact ih c h
    · rw [List.dropWhile_cons_of_neg ha] at h
      simp only [List.head?_cons, Option.some.injEq] at h
      subst h
      exact Bool.not_eq_true _ ▸ eq_false_of_ne_true ha

theorem getLast?_dropWhile (p : Char → Bool) (l : List Char)
    (h : l.dropWhile p ≠ []) : (l.dropWhile p).getLast? = l.getLast? := by
  obtain ⟨t, ht⟩ := List.dropWhile_suffix (l := l) p
  conv_rhs => rw [← ht]
  exact (List.getLast?_append_of_ne_nil t h).symm

theorem head?_pyStripList {cs : List Char} {c : Char}
    (h : (pyStripList cs).head? = some c) : isPySpace c = false := by
  unfold pyStripList at h
  rw [List.head?_reverse] at h
  cases hne : (cs.dropWhile isPySpace).reverse.dropWhile isPySpace with
  | nil => rw [hne] at h; simp at h
  | cons d ds =>
    rw [getLast?_dropWhile isPySpace _ (by rw [hne]; simp), List.getLast?_reverse] at h
    exact head?_dropWhile_not isPySpace cs c h

theorem getLast?_pyStripList {cs : List Char} {c : Char}
    (h : (pyStripList cs).getLast? = some c) : isPySpace c = false := by
  unfold pyStripList at h
  rw [List.getLast?_reverse] at h
  exact head?_dropWhile_not isPySpace _ c h

theorem noEdgeWhitespace_pyStripList (cs : List Char) :
    noEdgeWhitespace (String.mk (pyStripList cs)) = true := by
  unfold noEdgeWhitespace
  refine Bool.and_eq_true_iff.mpr ⟨?_, ?_⟩
  · cases hh : (String.mk (pyStripList cs)).data.head? with
    | none => simp
    | some c =>
      have : isPySpace c = false := head?_pyStripList hh
      simp [this]
  · cases hh : (String.mk (pyStripList cs)).data.getLast? with
    | none => simp
    | some c =>
      have : isPySpace c = false := getLast?_pyStripList hh
      simp [this]

theorem pySplitOnce_snd (sep : Char) :
    ∀ cs : List Char, (pySplitOnce sep cs).2 =
      if sep ∈ cs then some ((cs.dropWhile fun c => c != sep).tail) else none := by
  intro cs
  induction cs with
  | nil => simp [pySplitOnce]
  | cons c cs ih =>
    by_cases hc : c = sep
    · subst hc
      simp [pySplitOnce, List.dropWhile_cons]
    · have hns : ¬sep = c := fun h => hc h.symm
      have hne : (c != sep) = true := bne_iff_ne.mpr hc
      by_cases hm : sep ∈ cs
      · simp [pySplitOnce, if_neg hc, ih, hm, List.mem_cons, hns,
          List.dropWhile_cons, hne]
      · simp [pySplitOnce, if_neg hc, ih, hm, List.mem_cons, hns]

theorem findNameTag_map (kvs : List (String × Json)) :
    findNameTag (kvs.map mkNameTag) =
      Except.ok (((kvs.find? fun kv => kv.1 == "Name").map Prod.snd)) := by
  induction kvs with
  | nil => rfl
  | cons kv rest ih =>
    obtain ⟨k, v⟩ := kv
    by_cases hk : k = "Name"
    · subst hk
      simp [findNameTag, mkNameTag, pySubscript, lookupField, jsonIsStr, List.find?,
        Bind.bind, Except.bind, pure, Except.pure]
    · have hkb : (k == "Name") = false := beq_eq_false_iff_ne.mpr hk
      simp [findNameTag, mkNameTag, pySubscript, lookupField, jsonIsStr, hk, hkb,
        List.find?, Bind.bind, Except.bind, ih]

/-! ## Claim theorems -/

/-- C4, counterexample: the ANSI stripping substitution is NOT
idempotent.  On the input ESC ESC `[0m` `A`, the first pass removes the
inner `ESC [ 0 m` sequence, juxtaposing the leading ESC with `A` and
creating a fresh match that only a second pass removes. -/
theorem c4_counterexample :
    ¬ ansiStrip (ansiStrip ("\x1B\x1B[0mA".data)) = ansiStrip ("\x1B\x1B[0mA".data) := by
  decide

/-- C4, amended: stripping is idempotent on every input whose stripped
form contains no ESC character (a second pass can only differ by
consuming an ESC the first pass left behind). -/
theorem c4_strip_idempotent_when_output_esc_free :
    ∀ cs : List Char, '\x1B' ∉ ansiStrip cs →
      ansiStrip (ansiStrip cs) = ansiStrip cs :=
  fun _ h => ansiStrip_of_not_esc h

/-- Witness for the amended C4 at a concrete colored prompt line. -/
theorem c4_witness :
    '\x1B' ∉ ansiStrip ("\x1B[31mroot@ip-10-0-0-1 # ls -la".data) ∧
    ansiStrip (ansiStrip ("\x1B[31mroot@ip-10-0-0-1 # ls -la".data)) =
      ansiStrip ("\x1B[31mroot@ip-10-0-0-1 # ls -la".data) :=
  ⟨by decide, c4_strip_idempotent_when_output_esc_free _ (by decide)⟩

/-- C5: `extract_clean_command` returns, when the stripped text contains
a `#`, the whitespace-trimmed suffix after the first occurrence of `#`,
and otherwise the whole stripped text with surrounding whitespace
trimmed — the code's `split('#', 1)[1]` agrees with the spec's
"everything after the first occurrence". -/
theorem c5_clean_command_matches_spec :
    ∀ raw_line : String, extract_clean_command raw_line = specCleanCommand raw_line := by
  intro raw
  unfold extract_clean_command specCleanCommand specAfterFirstHash
  by_cases hm : '#' ∈ ansiStrip raw.data
  · have hc : (ansiStrip raw.data).contains '#' = true := List.elem_iff.mpr hm
    rw [if_pos hc, if_pos hm, pySplitOnce_snd, if_pos hm]
    rfl
  · have hc : ¬(ansiStrip raw.data).contains '#' = true :=
      fun h => hm (List.elem_iff.mp h)
    rw [if_neg hc, if_neg hm]

/-- C6: `extract_username` returns the identifier of the first
`identifier@host` match in the stripped text, and otherwise the caller's
fallback — which, at the call site (line 35), is the inner payload's
`runAsUser` value or `"unknown"` when that field is absent.  On
`"alice@ip-10-0-0-1"` it returns `"alice"`. -/
theorem c6_username_extraction :
    ∀ (raw_line : String) (fields : List (String × Json)),
      extract_username "alice@ip-10-0-0-1" (Json.str "somebody") = Json.str "alice" ∧
      extract_username "user-1: %connect\nssh> shell-user@host-7 # ls -la"
        (Json.str "somebody") = Json.str "shell-user" ∧
      usernameOfRecord "no actor pattern here!" (Json.obj []) =
        Except.ok (Json.str "unknown") ∧
      usernameOfRecord raw_line (Json.obj fields) =
        Except.ok (match userSearch (ansiStrip raw_line.data) with
          | some ident => Json.str (String.mk ident)
          | none => (lookupField fields "runAsUser").getD (Json.str "unknown")) := by
  intro raw fields
  refine ⟨rfl, rfl, rfl, ?_⟩
  unfold usernameOfRecord extract_username pyGet
  cases h : userSearch (ansiStrip raw.data) <;>
    simp [h, Bind.bind, Except.bind, pure, Except.pure]

/-- C9: the rendered timestamp is `"<UTC-string> / <LOCAL-string>"`,
where the UTC string renders the instant's civil fields in UTC and the
local string renders the same instant shifted by the fixed offset +5:30,
each as `YYYY-MM-DD HH:MM:SS <ZONE>`. -/
theorem c9_timestamp_rendering :
    ∀ ms : Int, renderTimestamp ms = specTimestampString ms := by
  intro ms
  simp [renderTimestamp, specTimestampString, strftimeYmdHMS, specInstantRendering,
    fromtimestampUTC, astimezone]

/-- C10: the value `extract_clean_command` returns never has leading or
trailing whitespace: both branches end in a Python `strip()`. -/
theorem c10_clean_command_trimmed :
    ∀ raw_line : String, noEdgeWhitespace (extract_clean_command raw_line) = true := by
  intro raw
  unfold extract_clean_command
  by_cases h : (ansiStrip raw.data).contains '#'
  · rw [if_pos h]
    exact noEdgeWhitespace_pyStripList _
  · rw [if_neg h]
    exact noEdgeWhitespace_pyStripList _

/-- C8: `get_instance_name` returns the placeholder `"Unknown"` whenever
the lookup call raises, or the response is malformed or empty, or no
`Name` tag is present; on a well-formed response it returns the value of
the first tag whose key is `Name`.  It never lets an exception
propagate: every failure path ends in the catch-all `except`. -/
theorem c8_instance_name_lookup :
    ∀ (i : Json) (kvs : List (String × Json)) (ec2 : Json → Except Unit Json),
      (ec2 i = Except.error () → get_instance_name ec2 i = Json.str "Unknown") ∧
      (ec2 i = Except.ok (Json.obj []) → get_instance_name ec2 i = Json.str "Unknown") ∧
      (ec2 i = Except.ok (Json.obj [("Reservations", Json.arr [])]) →
        get_instance_name ec2 i = Json.str "Unknown") ∧
      (ec2 i = Except.ok (mkDescribeResponse (kvs.map mkNameTag)) →
        get_instance_name ec2 i =
          ((kvs.find? fun kv => kv.1 == "Name").map Prod.snd).getD (Json.str "Unknown")) := by
  intro i kvs ec2
  refine ⟨fun h => ?_, fun h => ?_, fun h => ?_, fun h => ?_⟩
  · simp [get_instance_name, h, Bind.bind, Except.bind]
  · simp [get_instance_name, h, pySubscript, lookupField, Bind.bind, Except.bind]
  · simp [get_instance_name, h, pySubscript, pyIndexFirst, lookupField,
      Bind.bind, Except.bind]
  · rw [get_instance_name, h]
    cases hf : (kvs.find? fun kv => kv.1 == "Name") <;>
      simp [mkDescribeResponse, pySubscript, lookupField, pyIndexFirst, pyGet,
        pyIterate, Bind.bind, Except.bind, findNameTag_map kvs, hf]

/-- Witness for C8: a raising lookup yields `"Unknown"`; a well-formed
response with an `Env` tag followed by a `Name` tag yields the `Name`
tag's value. -/
theorem c8_witness :
    get_instance_name ec2Never (Json.str "i-0123") = Json.str "Unknown" ∧
    get_instance_name ec2NameTag (Json.str "i-0123") = Json.str "web-server" :=
  ⟨(c8_instance_name_lookup (Json.str "i-0123") [] ec2Never).1 rfl,
   (c8_instance_name_lookup (Json.str "i-0123")
      [("Env", Json.str "prod"), ("Name", Json.str "web-server")] ec2NameTag).2.2.2 rfl⟩

/-- C2, counterexample: a successfully decoded top-level JSON object
that lacks the `"logEvents"` key does NOT produce a 400 result — the
`logs_data["logEvents"]` subscript on line 25 sits outside the
`try`/`except`, so the KeyError propagates out of the handler (no
notifications are dispatched, but no 400 result is returned either). -/
theorem c2_counterexample :
    lambda_handler jloadsNever ec2Never jdumpsConst sesAlwaysOk
      (Except.ok (Json.obj [("logStream", Json.str "stream-1")])) =
      (Except.error PyErr.keyError, []) := rfl

/-- C2, amended: every failure inside the decode `try` block (bad
base64, bad compression, invalid top-level JSON) yields a 400 result
carrying the causing message, with no records processed and zero
notifications dispatched; but a decoded top-level object missing the
`"logEvents"` key instead raises an uncaught KeyError (still zero
notifications, yet no 400 result). -/
theorem c2_decode_failure_behaviour :
    ∀ (jloads : String → Except Unit Json) (ec2 : Json → Except Unit Json)
      (jdumps : Json → String) (sesOk : Nat → Bool) (msg : String)
      (fields : List (String × Json)),
      (lambda_handler jloads ec2 jdumps sesOk (Except.error msg) =
        (Except.ok ⟨400, "Log decode failed: " ++ msg⟩, [])) ∧
      (lookupField fields "logEvents" = none →
        lambda_handler jloads ec2 jdumps sesOk (Except.ok (Json.obj fields)) =
          (Except.error PyErr.keyError, [])) := by
  intro jloads ec2 jdumps sesOk msg fields
  refine ⟨rfl, fun h => ?_⟩
  simp [lambda_handler, pySubscript, h]

/-- Witness for the amended C2: a concrete failed decode returns 400
with the message and no dispatches; a concrete object without
`"logEvents"` raises KeyError. -/
theorem c2_witness :
    lambda_handler jloadsNever ec2Never jdumpsConst sesAlwaysOk
        (Except.error "Incorrect padding") =
      (Except.ok ⟨400, "Log decode failed: " ++ "Incorrect padding"⟩, []) ∧
    lambda_handler jloadsNever ec2Never jdumpsConst sesAlwaysOk
        (Except.ok (Json.obj [])) =
      (Except.error PyErr.keyError, []) :=
  ⟨(c2_decode_failure_behaviour jloadsNever ec2Never jdumpsConst sesAlwaysOk
      "Incorrect padding" []).1,
   (c2_decode_failure_behaviour jloadsNever ec2Never jdumpsConst sesAlwaysOk
      "Incorrect padding" []).2 rfl⟩

/-- C1, counterexample: in a decoded batch of two processable records
where the first SES dispatch raises and the second would succeed, the
handler stops at the first dispatch failure: the invocation ends with
the propagated exception and dispatches nothing at all, so the second
record's notification never takes place (with an always-succeeding SES
collaborator the same batch dispatches two notifications). -/
theorem c1_counterexample :
    lambda_handler jloadsNever ec2Never jdumpsConst sesFailFirst
        (Except.ok twoRecordBatch) = (Except.error PyErr.sesError, []) ∧
    (lambda_handler jloadsNever ec2Never jdumpsConst sesAlwaysOk
        (Except.ok twoRecordBatch)).2.length = 2 :=
  ⟨rfl, rfl⟩

/-- C1, amended: a raising `send_html_email` call aborts the whole
batch: whatever records remain, the loop result is the propagated
exception and no record of the remainder is processed or dispatched
(the result does not depend on `rest` at all). -/
theorem c1_dispatch_failure_aborts_batch :
    ∀ (jloads : String → Except Unit Json) (ec2 : Json → Except Unit Json)
      (jdumps : Json → String) (sesOk : Nat → Bool) (logs_data log_event : Json)
      (rest : List Json) (k : Nat) (email : String × String),
      processRecord jloads ec2 jdumps logs_data log_event = Except.ok email →
      sesOk k = false →
      processEvents jloads ec2 jdumps sesOk logs_data (log_event :: rest) k =
        (Except.error PyErr.sesError, []) := by
  intro jloads ec2 jdumps sesOk logs_data log_event rest k email hrec hses
  simp [processEvents, hrec, hses]

/-- Witness for the amended C1 at a concrete two-record batch whose
first dispatch raises. -/
theorem c1_witness :
    processEvents jloadsNever ec2Never jdumpsConst sesNeverOk twoRecordBatch
      [recMsgA, recMsgB] 0 = (Except.error PyErr.sesError, []) :=
  c1_dispatch_failure_aborts_batch jloadsNever ec2Never jdumpsConst sesNeverOk
    twoRecordBatch recMsgA [recMsgB] 0 emailOfRecA rfl rfl

/-- C7, counterexample: when the inner payload's `"target"` field is
present but is not an object (here the string `"x"`), the chained
chained `get` of `target` then `id` raises AttributeError on the
second `.get` — the record aborts instead of defaulting to
`"unknown"`. -/
theorem c7_counterexample :
    lambda_handler jloadsTargetStr ec2Never jdumpsConst sesAlwaysOk
      (Except.ok targetStrBatch) = (Except.error PyErr.attributeError, []) := rfl

/-- C7, amended: the target identifier defaults to `"unknown"` when the
inner payload has no `"target"` key, or when `"target"` maps to an
object without an `"id"` key; but when `"target"` maps to a non-object
value the record raises AttributeError instead of defaulting. -/
theorem c7_target_id_behaviour :
    ∀ (fields tfields : List (String × Json)) (j : Json),
      (lookupField fields "target" = none →
        targetIdOf (Json.obj fields) = Except.ok (Json.str "unknown")) ∧
      (lookupField fields "target" = some (Json.obj tfields) →
        targetIdOf (Json.obj fields) =
          Except.ok ((lookupField tfields "id").getD (Json.str "unknown"))) ∧
      (lookupField fields "target" = some j → isJsonObj j = false →
        targetIdOf (Json.obj fields) = Except.error PyErr.attributeError) := by
  intro fields tfields j
  refine ⟨fun h => ?_, fun h => ?_, fun h hobj => ?_⟩
  · simp [targetIdOf, pyGet, h, lookupField, Bind.bind, Except.bind]
  · simp [targetIdOf, pyGet, h, Bind.bind, Except.bind]
  · cases j <;> simp_all [targetIdOf, pyGet, isJsonObj, Bind.bind, Except.bind]

/-- Witness for the amended C7 at the three concrete shapes. -/
theorem c7_witness :
    targetIdOf (Json.obj []) = Except.ok (Json.str "unknown") ∧
    targetIdOf (Json.obj [("target", Json.obj [("id", Json.str "i-0123")])]) =
      Except.ok (Json.str "i-0123") ∧
    targetIdOf (Json.obj [("target", Json.str "x")]) =
      Except.error PyErr.attributeError :=
  ⟨(c7_target_id_behaviour [] [] Json.null).1 rfl,
   (c7_target_id_behaviour [("target", Json.obj [("id", Json.str "i-0123")])]
      [("id", Json.str "i-0123")] Json.null).2.1 rfl,
   (c7_target_id_behaviour [("target", Json.str "x")] [] (Json.str "x")).2.2 rfl rfl⟩

/-- C3, amended: a record whose message text fails to parse as JSON is
absorbed (the caught `json.JSONDecodeError` substitutes an empty
payload): the record still yields its alert with every derived field at
its placeholder, and the loop proceeds to the sibling records.  (As
`c3_counterexample` shows, this degradation does NOT extend to messages
that parse to non-object JSON values, which abort the batch.) -/
theorem c3_unparseable_message_degrades :
    ∀ (jloads : String → Except Unit Json) (ec2 : Json → Except Unit Json)
      (jdumps : Json → String) (sesOk : Nat → Bool) (lfields : List (String × Json))
      (m : String) (t : Int) (rest : List Json) (k : Nat),
      jloads m = Except.error () →
      (processRecord jloads ec2 jdumps (Json.obj lfields)
          (Json.obj [("message", Json.str m), ("timestamp", Json.num t)]) =
        Except.ok (placeholderEmail ec2 jdumps lfields t)) ∧
      (sesOk k = true →
        processEvents jloads ec2 jdumps sesOk (Json.obj lfields)
            (Json.obj [("message", Json.str m), ("timestamp", Json.num t)] :: rest) k =
          ((processEvents jloads ec2 jdumps sesOk (Json.obj lfields) rest (k + 1)).1,
            send_html_email (placeholderEmail ec2 jdumps lfields t).1
                (placeholderEmail ec2 jdumps lfields t).2 ::
              (processEvents jloads ec2 jdumps sesOk (Json.obj lfields) rest (k + 1)).2)) := by
  intro jloads ec2 jdumps sesOk lfields m t rest k hm
  have hec : extract_clean_command "" = "" := rfl
  have heu : ∀ fb, extract_username "" fb = fb := fun _ => rfl
  have h1 : processRecord jloads ec2 jdumps (Json.obj lfields)
      (Json.obj [("message", Json.str m), ("timestamp", Json.num t)]) =
      Except.ok (placeholderEmail ec2 jdumps lfields t) := by
    simp [processRecord, pyGet, pySubscript, lookupField, asPyString, asPyNumber,
      truthy, usernameOfRecord, targetIdOf, hm, hec, heu, placeholderEmail, pyStr,
      String.append_assoc, Bind.bind, Except.bind, pure, Except.pure]
  refine ⟨h1, fun hses => ?_⟩
  simp [processEvents, h1, hses]

/-- Witness for the amended C3 at a concrete record and batch. -/
theorem c3_witness :
    processRecord jloadsNever ec2Never jdumpsConst (Json.obj [])
        (Json.obj [("message", Json.str "x"), ("timestamp", Json.num 0)]) =
      Except.ok (placeholderEmail ec2Never jdumpsConst [] 0) ∧
    processEvents jloadsNever ec2Never jdumpsConst sesAlwaysOk (Json.obj [])
        [Json.obj [("message", Json.str "x"), ("timestamp", Json.num 0)]] 0 =
      ((processEvents jloadsNever ec2Never jdumpsConst sesAlwaysOk (Json.obj []) [] 1).1,
        send_html_email (placeholderEmail ec2Never jdumpsConst [] 0).1
            (placeholderEmail ec2Never jdumpsConst [] 0).2 ::
          (processEvents jloadsNever ec2Never jdumpsConst sesAlwaysOk (Json.obj []) [] 1).2) :=
  ⟨(c3_unparseable_message_degrades jloadsNever ec2Never jdumpsConst sesAlwaysOk []
      "x" 0 [] 0 rfl).1,
   (c3_unparseable_message_degrades jloadsNever ec2Never jdumpsConst sesAlwaysOk []
      "x" 0 [] 0 rfl).2 rfl⟩

/-- C3, counterexample: a record whose message text parses to the JSON
number `5` (valid JSON, but not an object) aborts the batch with an
uncaught AttributeError on the `get` of `sessionData` — no SessionFact
with placeholders is produced, and the sibling record is never
processed. -/
theorem c3_counterexample :
    lambda_handler jloadsNum ec2Never jdumpsConst sesAlwaysOk
      (Except.ok numMessageBatch) = (Except.error PyErr.attributeError, []) := rfl
